import Mathlib

/-!
Shallow embedding of `src/yolo_processor.py` (YOLO image-processing
controller over a Supabase table).  Time is modelled in integer seconds;
`datetime.isoformat` serialisation is modelled by `isoformat : Int → String`
and `datetime.fromisoformat` by an abstract parameter
`parse : String → Option Int` (parse failure = `none`).  Python truthiness
of optional values (`if x:`) is modelled by the `truthy*` helpers:
`None`, the empty string, the empty list and the number 0 are falsy.
-/

/-- `MAX_RETRY_COUNT = 3` from the source configuration. -/
def MAX_RETRY_COUNT : Nat := 3

/-- `RETRY_DELAY_HOURS = 1` from the source configuration. -/
def RETRY_DELAY_HOURS : Nat := 1

/-- `timedelta(hours=RETRY_DELAY_HOURS)` in seconds. -/
def RETRY_DELAY_SECONDS : Int := 60 * 60 * (RETRY_DELAY_HOURS : Int)

/-- `timedelta(days=7)` in seconds (cleanup staleness bound). -/
def CLEANUP_MAX_AGE_SECONDS : Int := 7 * 24 * 60 * 60

/-- One detection dict `{class, confidence, bbox}` built by
`process_image_with_yolo`.  The claims never compute with the float
`confidence`, so it is carried as an opaque integer token. -/
structure Detection where
  class_name : String
  confidence : Int
  bbox : List Int
  deriving DecidableEq, Repr

/-- A row of the `yolo_processing` table, with the fields the controller
reads or writes.  Optional columns are `Option`; an absent key and a NULL
value are both `none`. -/
structure Record where
  id : Nat
  filename : String
  original_image_url : String
  status : String
  processed : Bool
  retry_count : Option Nat
  updated_at : Option String
  error_message : Option String
  last_error : Option String
  processed_image_url : Option String
  processing_result : Option (List Detection)
  processing_time : Option Nat
  processed_at : Option String
  deriving DecidableEq, Repr

/-- Python truthiness of an optional string: `None` and `""` are falsy. -/
def truthyStr : Option String → Bool
  | none => false
  | some s => !(s == "")

/-- Python truthiness of an optional list: `None` and `[]` are falsy. -/
def truthyList : Option (List Detection) → Bool
  | none => false
  | some l => !l.isEmpty

/-- Python truthiness of an optional number: `None` and `0` are falsy. -/
def truthyNat : Option Nat → Bool
  | none => false
  | some n => !(n == 0)

/-- Model of `datetime.now().isoformat()`: serialise the integer clock. -/
def isoformat (t : Int) : String := toString t

/-- `update_processing_status` (lines 95-138): builds `update_data` and
applies it to the row.  Transcribed column-wise: a column is overwritten
iff its key ends up in `update_data` (the truthiness guards of lines
106-122, with the `status == "completed"` block of lines 124-128
overriding `processed_at`, `retry_count` and `last_error`); a key absent
from the dict leaves the stored column unchanged. -/
def update_processing_status (db : Record) (now : Int) (status : String)
    (processed_image_url : Option String)
    (processing_result : Option (List Detection))
    (error_message : Option String)
    (processing_time : Option Nat)
    (retry_count : Option Nat)
    (last_error : Option String) : Record :=
  { db with
    status := status,
    processed := status == "completed",
    updated_at := some (isoformat now),
    processed_image_url :=
      if truthyStr processed_image_url then processed_image_url
      else db.processed_image_url,
    processing_result :=
      if truthyList processing_result then processing_result
      else db.processing_result,
    error_message :=
      if truthyStr error_message then error_message
      else db.error_message,
    processing_time :=
      if truthyNat processing_time then processing_time
      else db.processing_time,
    retry_count :=
      if status == "completed" then some 0
      else if retry_count.isSome then retry_count
      else db.retry_count,
    last_error :=
      if status == "completed" then none
      else if truthyStr last_error then last_error
      else db.last_error,
    processed_at :=
      if status == "completed" then some (isoformat now)
      else db.processed_at }

/-- `should_retry_failed_image` (lines 140-171): max-retry gate, then the
retry-delay gate on the parsed `updated_at`; a missing/empty timestamp or
a parse failure allows the retry. -/
def should_retry_failed_image (parse : String → Option Int) (now : Int)
    (record : Record) : Bool :=
  let retry_count := record.retry_count.getD 0
  if retry_count ≥ MAX_RETRY_COUNT then
    false
  else
    match record.updated_at with
    | none => true
    | some last_error_time =>
      if last_error_time == "" then
        true
      else
        match parse last_error_time with
        | none => true
        | some last_error_dt =>
          let time_since_error := now - last_error_dt
          if time_since_error < RETRY_DELAY_SECONDS then false else true

/-- Outcome of the fallible steps of one processing attempt:
`download_image` result, `process_image_with_yolo` result (annotated
image present? plus the detections list), `upload_processed_image`
result, and the measured elapsed time. -/
structure AttemptEnv where
  download_ok : Bool
  yolo_ok : Bool
  detections : List Detection
  upload_result : Option String
  ptime : Nat
  deriving DecidableEq, Repr

/-- `raise Exception("Failed to download image")` message. -/
def downloadFailMsg : String := "Failed to download image"

/-- `raise Exception("YOLO processing failed")` message. -/
def yoloFailMsg : String := "YOLO processing failed"

/-- `raise Exception("Failed to upload processed image")` message. -/
def uploadFailMsg : String := "Failed to upload processed image"

/-- The attempt raises iff a step result is falsy (`if not …: raise`). -/
def attemptFails (env : AttemptEnv) : Bool :=
  !env.download_ok || !env.yolo_ok || !(truthyStr env.upload_result)

/-- `str(e)` of the first exception raised by the attempt. -/
def failMessage (env : AttemptEnv) : String :=
  if !env.download_ok then downloadFailMsg
  else if !env.yolo_ok then yoloFailMsg
  else uploadFailMsg

/-- `process_single_image` (lines 173-240): mark the row `processing`,
run the attempt; on success write the `completed` update with the upload
URL, detections and elapsed time; on exception write the `failed` update
with `retry_count` read from the fetched record plus one and the error
message in both error columns.  Returns the row state and the boolean
the function returns. -/
def process_single_image (db : Record) (now : Int) (env : AttemptEnv) :
    Record × Bool :=
  let db1 := update_processing_status db now "processing"
    none none none none none none
  if attemptFails env then
    let error_msg := failMessage env
    let current_retry_count := db.retry_count.getD 0
    let new_retry_count := current_retry_count + 1
    let db2 := update_processing_status db1 now "failed"
      none none (some error_msg) (some env.ptime)
      (some new_retry_count) (some error_msg)
    (db2, false)
  else
    let db2 := update_processing_status db1 now "completed"
      env.upload_result (some env.detections) none
      (some env.ptime) none none
    (db2, true)

/-- `n` consecutive failing attempts on the same row with no intervening
success: each attempt reads the row state left by the previous one. -/
def failN (db : Record) (now : Int) (env : AttemptEnv) : Nat → Record
  | 0 => db
  | Nat.succ m => (process_single_image (failN db now env m) now env).1

/-- Per-record deletion decision of `cleanup_old_failures` (lines
330-344): delete iff `retry_count >= MAX_RETRY_COUNT`, `updated_at` is
truthy, it parses, and the parsed time is strictly before
`now - timedelta(days=7)`; a parse failure skips the record. -/
def cleanup_deletes_record (parse : String → Option Int) (now : Int)
    (r : Record) : Bool :=
  let retry_count := r.retry_count.getD 0
  let cutoff_time := now - CLEANUP_MAX_AGE_SECONDS
  match r.updated_at with
  | none => false
  | some updated_at =>
    if retry_count ≥ MAX_RETRY_COUNT ∧ updated_at ≠ "" then
      match parse updated_at with
      | none => false
      | some updated_dt => decide (updated_dt < cutoff_time)
    else false

/-- The cleanup sweep over the table: it fetches the rows with
`status == "failed"` and deletes those the per-record decision selects;
the surviving table is returned. -/
def cleanup_old_failures (parse : String → Option Int) (now : Int)
    (db : List Record) : List Record :=
  db.filter (fun r => !((r.status == "failed") && cleanup_deletes_record parse now r))

/-- A failed row with one prior error recorded: `retry_count = 2`,
both error columns `"boom"`, `updated_at = "100"`. -/
def sampleFailedRecord : Record :=
  { id := 1, filename := "a.jpg", original_image_url := "http://x/a.jpg",
    status := "failed", processed := false, retry_count := some 2,
    updated_at := some "100", error_message := some "boom",
    last_error := some "boom", processed_image_url := none,
    processing_result := none, processing_time := none,
    processed_at := none }

/-- A failed row still below the retry limit (`retry_count = 1`). -/
def sampleRetryRecord : Record :=
  { sampleFailedRecord with id := 2, retry_count := some 1 }

/-- A failed row at the retry limit (`retry_count = 3`). -/
def sampleExhaustedRecord : Record :=
  { sampleFailedRecord with id := 3, retry_count := some 3 }

/-- A failed row with no `retry_count` key and no `updated_at` key. -/
def sampleNoCountRecord : Record :=
  { sampleFailedRecord with id := 4, retry_count := none, updated_at := none }

/-- A concrete timestamp parser recognising only the string `"100"`. -/
def sampleParse : String → Option Int := fun s => if s == "100" then some 100 else none

/-- A successful attempt whose detections list is empty. -/
def successEnvNoDet : AttemptEnv :=
  { download_ok := true, yolo_ok := true, detections := [],
    upload_result := some "http://x/processed_a.jpg", ptime := 5 }

/-- A successful attempt with one detection. -/
def successEnvOneDet : AttemptEnv :=
  { download_ok := true, yolo_ok := true,
    detections := [{ class_name := "person", confidence := 9, bbox := [0, 1, 2, 3] }],
    upload_result := some "http://x/processed_a.jpg", ptime := 5 }

/-- An attempt whose image download fails. -/
def failEnvDownload : AttemptEnv :=
  { download_ok := false, yolo_ok := true, detections := [],
    upload_result := none, ptime := 7 }

/-- A successful attempt with an empty detections list whose measured
elapsed time is 0 (two clock reads in the same tick). -/
def successEnvZeroTime : AttemptEnv :=
  { download_ok := true, yolo_ok := true, detections := [],
    upload_result := some "http://x/processed_a.jpg", ptime := 0 }

/-- A failing attempt whose measured elapsed time is 0. -/
def failEnvZeroTime : AttemptEnv :=
  { download_ok := false, yolo_ok := true, detections := [],
    upload_result := none, ptime := 0 }

/-- C9: every status update written by the controller stores
`processed = (status == "completed")`. -/
theorem processed_iff_completed (db : Record) (now : Int) (status : String)
    (purl : Option String) (pres : Option (List Detection))
    (emsg : Option String) (ptime : Option Nat)
    (rcount : Option Nat) (lerr : Option String) :
    (update_processing_status db now status purl pres emsg ptime rcount lerr).processed
      = (status == "completed") := rfl

/-- C3: with a recorded, parseable `updated_at`, `should_retry_failed_image`
returns false when `retry_count ≥ MAX_RETRY_COUNT`; below the limit it
returns true iff the elapsed time reaches `RETRY_DELAY_SECONDS` (true at
exactly the delay, false one instant before). -/
theorem should_retry_boundary (parse : String → Option Int) (now : Int)
    (r : Record) (ts : String) (t : Int)
    (hts : r.updated_at = some ts) (hne : ts ≠ "") (hp : parse ts = some t) :
    (r.retry_count.getD 0 ≥ MAX_RETRY_COUNT →
      should_retry_failed_image parse now r = false) ∧
    (r.retry_count.getD 0 < MAX_RETRY_COUNT →
      ((should_retry_failed_image parse now r = true ↔
          RETRY_DELAY_SECONDS ≤ now - t) ∧
       (should_retry_failed_image parse now r = false ↔
          now - t < RETRY_DELAY_SECONDS))) := by
  constructor
  · intro h
    simp [should_retry_failed_image, h]
  · intro h
    have hmax : ¬ r.retry_count.getD 0 ≥ MAX_RETRY_COUNT := Nat.not_le.mpr h
    simp [should_retry_failed_image, hmax, hne, hp, hts]

/-- C3 witness: a record with `retry_count = 1` and `updated_at = "100"`
is retried at `now = 3700` (elapsed exactly one hour) and not at
`now = 3699`; a record with `retry_count = 3` is never retried. -/
theorem should_retry_boundary_witness :
    should_retry_failed_image sampleParse 3700 sampleRetryRecord = true ∧
    should_retry_failed_image sampleParse 3699 sampleRetryRecord = false ∧
    should_retry_failed_image sampleParse 3700 sampleExhaustedRecord = false :=
  ⟨((should_retry_boundary sampleParse 3700 sampleRetryRecord "100" 100 rfl
      (by decide) (by decide)).2 (by decide)).1.mpr (by decide),
   ((should_retry_boundary sampleParse 3699 sampleRetryRecord "100" 100 rfl
      (by decide) (by decide)).2 (by decide)).2.mpr (by decide),
   (should_retry_boundary sampleParse 3700 sampleExhaustedRecord "100" 100 rfl
      (by decide) (by decide)).1 (by decide)⟩

/-- C7: below the retry limit, a record whose `updated_at` fails to parse
is still retried (fail open). -/
theorem parse_failure_allows_retry (parse : String → Option Int) (now : Int)
    (r : Record) (ts : String)
    (hc : r.retry_count.getD 0 < MAX_RETRY_COUNT)
    (hts : r.updated_at = some ts) (hp : parse ts = none) :
    should_retry_failed_image parse now r = true := by
  unfold should_retry_failed_image
  rw [hts]
  have hmax : ¬ r.retry_count.getD 0 ≥ MAX_RETRY_COUNT := Nat.not_le.mpr hc
  by_cases he : ts = ""
  · simp [hmax, he]
  · simp [hmax, he, hp]

/-- C7 witness: the record with `retry_count = 1` is retried when its
timestamp parses to nothing. -/
theorem parse_failure_allows_retry_witness :
    should_retry_failed_image (fun _ => none) 3700 sampleRetryRecord = true :=
  parse_failure_allows_retry (fun _ => none) 3700 sampleRetryRecord "100"
    (by decide) rfl rfl

/-- C8: the cleanup sweep never deletes a record whose `updated_at` fails
to parse: its deletion decision is false and it survives the sweep. -/
theorem cleanup_skips_unparseable (parse : String → Option Int) (now : Int)
    (r : Record) (ts : String)
    (hts : r.updated_at = some ts) (hp : parse ts = none) :
    cleanup_deletes_record parse now r = false ∧
    ∀ dbl : List Record, r ∈ dbl → r ∈ cleanup_old_failures parse now dbl := by
  have hdec : cleanup_deletes_record parse now r = false := by
    simp [cleanup_deletes_record, hts, hp]
  refine ⟨hdec, ?_⟩
  intro dbl hmem
  unfold cleanup_old_failures
  rw [List.mem_filter]
  exact ⟨hmem, by simp [hdec]⟩

/-- C8 witness: a record aged far past every limit but with an
unparseable timestamp survives the sweep. -/
theorem cleanup_skips_unparseable_witness :
    cleanup_deletes_record (fun _ => none) 10000000 sampleExhaustedRecord = false ∧
    sampleExhaustedRecord ∈
      cleanup_old_failures (fun _ => none) 10000000 [sampleExhaustedRecord] :=
  ⟨(cleanup_skips_unparseable (fun _ => none) 10000000 sampleExhaustedRecord
      "100" rfl rfl).1,
   (cleanup_skips_unparseable (fun _ => none) 10000000 sampleExhaustedRecord
      "100" rfl rfl).2 [sampleExhaustedRecord] (List.mem_singleton.mpr rfl)⟩

/-- The exception message of a failing attempt is never empty. -/
theorem truthy_failMessage (env : AttemptEnv) :
    truthyStr (some (failMessage env)) = true := by
  rcases env with ⟨d, y, dets, u, p⟩
  cases d <;> cases y <;> rfl

/-- The exception message of a failing attempt differs from `""`. -/
theorem failMessage_ne_empty (env : AttemptEnv) : failMessage env ≠ "" := by
  rcases env with ⟨d, y, dets, u, p⟩
  cases d <;> cases y <;>
    simp [failMessage, downloadFailMsg, yoloFailMsg, uploadFailMsg]

/-- A failing attempt writes back the `retry_count` read from the fetched
record plus one. -/
theorem failed_retry_step (db : Record) (now : Int) (env : AttemptEnv)
    (hf : attemptFails env = true) :
    ((process_single_image db now env).1).retry_count =
      some (db.retry_count.getD 0 + 1) := by
  simp [process_single_image, hf, update_processing_status]

/-- C4: with a recorded, parseable `updated_at`, the cleanup deletion
decision is true iff `retry_count ≥ MAX_RETRY_COUNT` and the timestamp is
strictly older than `now` minus seven days; below the retry limit the
record is never deleted; and the sweep removes exactly the failed records
the decision selects. -/
theorem cleanup_deletion_criterion (parse : String → Option Int) (now : Int)
    (r : Record) (ts : String) (t : Int)
    (hts : r.updated_at = some ts) (hne : ts ≠ "") (hp : parse ts = some t) :
    (cleanup_deletes_record parse now r = true ↔
      (r.retry_count.getD 0 ≥ MAX_RETRY_COUNT ∧
        t < now - CLEANUP_MAX_AGE_SECONDS)) ∧
    (r.retry_count.getD 0 < MAX_RETRY_COUNT →
      cleanup_deletes_record parse now r = false) ∧
    (∀ dbl : List Record, r ∈ dbl →
      (r ∉ cleanup_old_failures parse now dbl ↔
        (r.status = "failed" ∧ cleanup_deletes_record parse now r = true))) := by
  have hiff : cleanup_deletes_record parse now r = true ↔
      (r.retry_count.getD 0 ≥ MAX_RETRY_COUNT ∧
        t < now - CLEANUP_MAX_AGE_SECONDS) := by
    simp [cleanup_deletes_record, hts, hne, hp]
  refine ⟨hiff, ?_, ?_⟩
  · intro h
    cases hb : cleanup_deletes_record parse now r
    · rfl
    · exact absurd (hiff.mp hb).1 (Nat.not_le.mpr h)
  · intro dbl hmem
    simp [cleanup_old_failures, List.mem_filter, hmem]

/-- C4 witness: an exhausted record stamped `100` is not deleted at
`now = 604900` (exactly the seven-day boundary), deleted one instant
later, and a record with `retry_count = 1` is never deleted; the deleted
record leaves the sweep's output. -/
theorem cleanup_deletion_criterion_witness :
    cleanup_deletes_record sampleParse 604901 sampleExhaustedRecord = true ∧
    cleanup_deletes_record sampleParse 604900 sampleExhaustedRecord = false ∧
    cleanup_deletes_record sampleParse 99999999 sampleRetryRecord = false ∧
    sampleExhaustedRecord ∉
      cleanup_old_failures sampleParse 604901 [sampleExhaustedRecord] := by
  have h1 := cleanup_deletion_criterion sampleParse 604901 sampleExhaustedRecord
    "100" 100 rfl (by decide) (by decide)
  have h2 := cleanup_deletion_criterion sampleParse 604900 sampleExhaustedRecord
    "100" 100 rfl (by decide) (by decide)
  have h3 := cleanup_deletion_criterion sampleParse 99999999 sampleRetryRecord
    "100" 100 rfl (by decide) (by decide)
  refine ⟨h1.1.mpr (by decide), ?_, h3.2.1 (by decide), ?_⟩
  · cases hb : cleanup_deletes_record sampleParse 604900 sampleExhaustedRecord
    · rfl
    · exact absurd (h2.1.mp hb).2 (by decide)
  · exact (h1.2.2 [sampleExhaustedRecord] (List.mem_singleton.mpr rfl)).mpr
      ⟨rfl, h1.1.mpr (by decide)⟩

/-- C1 counterexample: a record that failed earlier (`error_message =
"boom"`) succeeds; the Completed update leaves `error_message = "boom"`,
so the error fields are not both empty. -/
theorem completed_keeps_stale_error_message :
    (process_single_image sampleFailedRecord 10000 successEnvNoDet).2 = true ∧
    ((process_single_image sampleFailedRecord 10000 successEnvNoDet).1).status
      = "completed" ∧
    ((process_single_image sampleFailedRecord 10000 successEnvNoDet).1).error_message
      = some "boom" ∧
    ¬(((process_single_image sampleFailedRecord 10000 successEnvNoDet).1).error_message
        = none ∧
      ((process_single_image sampleFailedRecord 10000 successEnvNoDet).1).last_error
        = none) := by decide

/-- C1 amended: for every record on which the attempt succeeds, the
Completed update leaves `retry_count = 0` and `last_error` empty
regardless of the prior values, while `error_message` keeps the value it
had before the attempt. -/
theorem completed_resets_retry_and_last_error (db : Record) (now : Int)
    (env : AttemptEnv) (h : attemptFails env = false) :
    ((process_single_image db now env).1).retry_count = some 0 ∧
    ((process_single_image db now env).1).last_error = none ∧
    ((process_single_image db now env).1).error_message = db.error_message := by
  simp [process_single_image, h, update_processing_status, truthyStr]

/-- C1 witness: the reset applied to the concrete failed record with
`retry_count = 2` and stale `"boom"` error fields. -/
theorem completed_resets_retry_and_last_error_witness :
    attemptFails successEnvNoDet = false ∧
    (((process_single_image sampleFailedRecord 10000 successEnvNoDet).1).retry_count
        = some 0 ∧
      ((process_single_image sampleFailedRecord 10000 successEnvNoDet).1).last_error
        = none ∧
      ((process_single_image sampleFailedRecord 10000 successEnvNoDet).1).error_message
        = sampleFailedRecord.error_message) :=
  ⟨by decide,
   completed_resets_retry_and_last_error sampleFailedRecord 10000 successEnvNoDet
     (by decide)⟩

/-- C2 counterexample: a Processing update on a previously failed record
leaves both error fields populated while the status is no longer
`failed`, so present-iff-Failed does not hold. -/
theorem error_fields_not_iff_failed :
    (update_processing_status sampleFailedRecord 10000 "processing"
        none none none none none none).status ≠ "failed" ∧
    (update_processing_status sampleFailedRecord 10000 "processing"
        none none none none none none).error_message = some "boom" ∧
    (update_processing_status sampleFailedRecord 10000 "processing"
        none none none none none none).last_error = some "boom" := by decide

/-- C2 amended: a Failed attempt stores the exception message in both
error fields; a successful attempt ends Completed with `last_error`
cleared but `error_message` left at its prior value; a Processing update
leaves both error fields unchanged. -/
theorem error_field_transitions (db : Record) (now : Int)
    (envf envs : AttemptEnv)
    (hf : attemptFails envf = true) (hs : attemptFails envs = false) :
    ((process_single_image db now envf).1).status = "failed" ∧
    ((process_single_image db now envf).1).error_message
      = some (failMessage envf) ∧
    ((process_single_image db now envf).1).last_error
      = some (failMessage envf) ∧
    ((process_single_image db now envs).1).status = "completed" ∧
    ((process_single_image db now envs).1).last_error = none ∧
    ((process_single_image db now envs).1).error_message = db.error_message ∧
    (update_processing_status db now "processing"
        none none none none none none).error_message = db.error_message ∧
    (update_processing_status db now "processing"
        none none none none none none).last_error = db.last_error := by
  refine ⟨?_, ?_, ?_, ?_, ?_, ?_, ?_, ?_⟩ <;>
    simp [process_single_image, hf, hs, update_processing_status,
      truthy_failMessage, truthyStr, failMessage_ne_empty]

/-- C2 witness: the transitions applied to the concrete failed record,
with a download failure and a clean success. -/
theorem error_field_transitions_witness :
    attemptFails failEnvDownload = true ∧
    attemptFails successEnvNoDet = false ∧
    (((process_single_image sampleFailedRecord 10000 failEnvDownload).1).status
        = "failed" ∧
      ((process_single_image sampleFailedRecord 10000 failEnvDownload).1).error_message
        = some (failMessage failEnvDownload) ∧
      ((process_single_image sampleFailedRecord 10000 failEnvDownload).1).last_error
        = some (failMessage failEnvDownload) ∧
      ((process_single_image sampleFailedRecord 10000 successEnvNoDet).1).status
        = "completed" ∧
      ((process_single_image sampleFailedRecord 10000 successEnvNoDet).1).last_error
        = none ∧
      ((process_single_image sampleFailedRecord 10000 successEnvNoDet).1).error_message
        = sampleFailedRecord.error_message ∧
      (update_processing_status sampleFailedRecord 10000 "processing"
          none none none none none none).error_message
        = sampleFailedRecord.error_message ∧
      (update_processing_status sampleFailedRecord 10000 "processing"
          none none none none none none).last_error
        = sampleFailedRecord.last_error) :=
  ⟨by decide, by decide,
   error_field_transitions sampleFailedRecord 10000 failEnvDownload
     successEnvNoDet (by decide) (by decide)⟩

/-- C5 counterexample: a successful attempt with an empty detections
list and a zero measured elapsed time leaves both `processing_result`
and `processing_time` unset on the Completed record. -/
theorem completed_empty_detections_not_written :
    (process_single_image sampleFailedRecord 10000 successEnvZeroTime).2 = true ∧
    successEnvZeroTime.detections = [] ∧
    successEnvZeroTime.ptime = 0 ∧
    ((process_single_image sampleFailedRecord 10000 successEnvZeroTime).1).processing_result
      = none ∧
    ((process_single_image sampleFailedRecord 10000 successEnvZeroTime).1).processing_time
      = none := by decide

/-- C5 amended: a successful attempt sets `processed_image_url` and
`processed_at`; `processing_time` and the detections list are written
only when truthy — a zero measured time or an empty detections list
leaves the stored column unchanged. -/
theorem completed_sets_results (db : Record) (now : Int) (env : AttemptEnv)
    (u : String)
    (hd : env.download_ok = true) (hy : env.yolo_ok = true)
    (hu : env.upload_result = some u) (hne : u ≠ "") :
    ((process_single_image db now env).1).processed_image_url = some u ∧
    ((process_single_image db now env).1).processed_at
      = some (isoformat now) ∧
    ((process_single_image db now env).1).processing_time
      = (if env.ptime = 0 then db.processing_time else some env.ptime) ∧
    ((process_single_image db now env).1).processing_result
      = (if env.detections.isEmpty then db.processing_result
         else some env.detections) := by
  have hfail : attemptFails env = false := by
    simp [attemptFails, hd, hy, hu, truthyStr, hne]
  refine ⟨?_, ?_, ?_, ?_⟩ <;> by_cases hp0 : env.ptime = 0 <;>
    simp [process_single_image, hfail, update_processing_status,
      truthyStr, truthyNat, truthyList, hu, hne, hp0]

/-- C5 witness: a success with one detection and a positive elapsed time
writes the URL, the completion stamp, the elapsed time and the
detections list. -/
theorem completed_sets_results_witness :
    successEnvOneDet.upload_result = some "http://x/processed_a.jpg" ∧
    (((process_single_image sampleFailedRecord 10000 successEnvOneDet).1).processed_image_url
        = some "http://x/processed_a.jpg" ∧
      ((process_single_image sampleFailedRecord 10000 successEnvOneDet).1).processed_at
        = some (isoformat 10000) ∧
      ((process_single_image sampleFailedRecord 10000 successEnvOneDet).1).processing_time
        = (if successEnvOneDet.ptime = 0
           then sampleFailedRecord.processing_time
           else some successEnvOneDet.ptime) ∧
      ((process_single_image sampleFailedRecord 10000 successEnvOneDet).1).processing_result
        = (if successEnvOneDet.detections.isEmpty
           then sampleFailedRecord.processing_result
           else some successEnvOneDet.detections)) :=
  ⟨rfl,
   completed_sets_results sampleFailedRecord 10000 successEnvOneDet
     "http://x/processed_a.jpg" rfl rfl rfl (by decide)⟩

/-- C6 counterexample: a failing attempt with a zero measured elapsed
time does not write `processing_time` (it stays unset) even though the
retry count and error fields are written. -/
theorem failed_zero_time_not_written :
    attemptFails failEnvZeroTime = true ∧
    failEnvZeroTime.ptime = 0 ∧
    ((process_single_image sampleFailedRecord 10000 failEnvZeroTime).1).retry_count
      = some 3 ∧
    ((process_single_image sampleFailedRecord 10000 failEnvZeroTime).1).processing_time
      = none := by decide

/-- C6 amended: a failing attempt writes `retry_count` equal to the value
read from the record at the start of the attempt plus one (a missing
value defaulting to 0) together with both error fields; `processing_time`
is written only when the measured elapsed time is nonzero, a zero value
leaving the stored column unchanged; `n` consecutive failures starting
from a zero count leave `retry_count = n`. -/
theorem failed_attempt_increments_retry (db : Record) (now : Int)
    (env : AttemptEnv) (hf : attemptFails env = true) :
    ((process_single_image db now env).1).retry_count
      = some (db.retry_count.getD 0 + 1) ∧
    ((process_single_image db now env).1).error_message
      = some (failMessage env) ∧
    ((process_single_image db now env).1).last_error
      = some (failMessage env) ∧
    ((process_single_image db now env).1).processing_time
      = (if env.ptime = 0 then db.processing_time else some env.ptime) ∧
    (db.retry_count.getD 0 = 0 →
      ∀ n : Nat, (failN db now env n).retry_count.getD 0 = n) := by
  refine ⟨failed_retry_step db now env hf, ?_, ?_, ?_, ?_⟩
  · simp [process_single_image, hf, update_processing_status,
      truthy_failMessage]
  · simp [process_single_image, hf, update_processing_status,
      truthy_failMessage]
  · by_cases hp0 : env.ptime = 0 <;>
      simp [process_single_image, hf, update_processing_status,
        truthyNat, truthyStr, hp0]
  · intro h0 n
    induction n with
    | zero => simpa [failN] using h0
    | succ m ih =>
      have hstep := failed_retry_step (failN db now env m) now env hf
      simp [failN, hstep, ih]

/-- C6 witness: three consecutive download failures on a record with no
`retry_count` key leave `retry_count = 3`; one failure writes the error
fields and the (nonzero) elapsed time. -/
theorem failed_attempt_increments_retry_witness :
    attemptFails failEnvDownload = true ∧
    ((process_single_image sampleNoCountRecord 10000 failEnvDownload).1).retry_count
      = some (sampleNoCountRecord.retry_count.getD 0 + 1) ∧
    ((process_single_image sampleNoCountRecord 10000 failEnvDownload).1).error_message
      = some (failMessage failEnvDownload) ∧
    ((process_single_image sampleNoCountRecord 10000 failEnvDownload).1).last_error
      = some (failMessage failEnvDownload) ∧
    ((process_single_image sampleNoCountRecord 10000 failEnvDownload).1).processing_time
      = (if failEnvDownload.ptime = 0
         then sampleNoCountRecord.processing_time
         else some failEnvDownload.ptime) ∧
    (failN sampleNoCountRecord 10000 failEnvDownload 3).retry_count.getD 0 = 3 := by
  have h := failed_attempt_increments_retry sampleNoCountRecord 10000
    failEnvDownload (by decide)
  exact ⟨by decide, h.1, h.2.1, h.2.2.1, h.2.2.2.1,
    h.2.2.2.2 (by decide) 3⟩

/-- C10: a record with no `retry_count` key is treated as having count 0:
`should_retry_failed_image` behaves exactly as if the count were 0, and a
failing attempt writes `retry_count = 1`. -/
theorem missing_retry_count_defaults_zero (parse : String → Option Int)
    (now : Int) (r : Record) (env : AttemptEnv)
    (hrc : r.retry_count = none) (hf : attemptFails env = true) :
    r.retry_count.getD 0 = 0 ∧
    should_retry_failed_image parse now r
      = should_retry_failed_image parse now { r with retry_count := some 0 } ∧
    ((process_single_image r now env).1).retry_count = some 1 := by
  refine ⟨by simp [hrc], ?_, ?_⟩
  · simp [should_retry_failed_image, hrc]
  · have h := failed_retry_step r now env hf
    simpa [hrc] using h

/-- C10 witness: the record with no `retry_count` key is retry-eligible
on the count criterion and a download failure writes `retry_count = 1`. -/
theorem missing_retry_count_defaults_zero_witness :
    sampleNoCountRecord.retry_count = none ∧
    (sampleNoCountRecord.retry_count.getD 0 = 0 ∧
      should_retry_failed_image sampleParse 10000 sampleNoCountRecord
        = should_retry_failed_image sampleParse 10000
            { sampleNoCountRecord with retry_count := some 0 } ∧
      ((process_single_image sampleNoCountRecord 10000 failEnvDownload).1).retry_count
        = some 1) :=
  ⟨rfl,
   missing_retry_count_defaults_zero sampleParse 10000 sampleNoCountRecord
     failEnvDownload rfl (by decide)⟩
